import Mathlib

/-!
Shallow embedding of the OneSignal Go API client (hgiasac/onesignal) and
proofs about its request construction, response decoding and error model.

The embedding follows the Go source:
* the client core (`New`, `Client.NewRequest`, `Client.Do`,
  `checkErrorResponse`, `ErrorResponse.Error`) from the repository's client
  file;
* the service-level post-processing of `PlayersService.Get` and
  `NotificationsService.Create` from players.go and notifications.go.

Standard-library collaborators (net/url parsing, net/http request creation,
encoding/json) are modelled explicitly; each such model carries a doc comment
stating the Go behaviour it captures.  Fallible Go functions returning
`(T, error)` become `Except`-valued Lean functions; Go `error` values are the
`GoError` inductive below; pointer mutation becomes explicit state passing.
-/

namespace OneSignal

/-- Translation of `strings.Join` from the Go standard library: the empty
list joins to `""`; otherwise the first element followed by `sep ++ elem`
for each further element. -/
def stringsJoin (elems : List String) (sep : String) : String :=
  match elems with
  | [] => ""
  | e :: rest => rest.foldl (fun acc s => acc ++ sep ++ s) e

/-- `ErrorResponse` reports one or more errors caused by an API request
(field `Messages` carries the decoded `errors` array). -/
structure ErrorResponse where
  Messages : List String
deriving DecidableEq, Repr

/-- `func (e *ErrorResponse) Error() string`: renders
`fmt.Sprintf("OneSignal errors:\n - %s", strings.Join(e.Messages, "\n - "))`. -/
def ErrorResponse.Error (e : ErrorResponse) : String :=
  "OneSignal errors:\n - " ++ stringsJoin e.Messages "\n - "

/-- A JSON decoding failure as produced by the `encoding/json` collaborator:
either the distinguished `io.EOF` sentinel value (compared against with
`err != io.EOF` in `Client.Do`) or any other error, identified by its
message. -/
inductive JsonError where
  | eof
  | mk (msg : String)
deriving DecidableEq, Repr

/-- The `Error()` string of a JSON decoding failure; `io.EOF.Error()` is
`"EOF"` in Go. -/
def JsonError.message : JsonError → String
  | .eof => "EOF"
  | .mk m => m

/-- A Go `error` interface value as surfaced by this client: either a plain
error created by `errors.New` / `fmt.Errorf` (identified by its message) or
the structured `*ErrorResponse`. -/
inductive GoError where
  | errorString (msg : String)
  | errorResponse (e : ErrorResponse)
deriving DecidableEq, Repr

/-- Dispatch of the `error` interface's `Error()` method. -/
def GoError.Error : GoError → String
  | .errorString m => m
  | .errorResponse e => e.Error

/-- The part of an `http.Response` read by this client: the status code and
the body.  The body type is abstract (`β`); all reads of the body go through
an explicitly passed `encoding/json` collaborator. -/
structure HttpResponse (β : Type) where
  StatusCode : Nat
  Body : β

/-- Translation of `checkErrorResponse` (client file, lines 194-209):
status 200/204 → no error; status 500 → `errors.New("internal server
error")` without touching the body; any other status → decode the body as
`ErrorResponse`, surfacing a decode failure as
`fmt.Errorf("couldn't decode response body JSON: %v", err)`.
`decodeErrorBody` is the `json.NewDecoder(r.Body).Decode(&errResp)`
collaborator. -/
def checkErrorResponse {β : Type}
    (decodeErrorBody : β → Except JsonError ErrorResponse)
    (r : HttpResponse β) : Option GoError :=
  if r.StatusCode = 200 ∨ r.StatusCode = 204 then
    none
  else if r.StatusCode = 500 then
    some (.errorString "internal server error")
  else
    match decodeErrorBody r.Body with
    | .error err =>
        some (.errorString ("couldn't decode response body JSON: " ++ err.message))
    | .ok errResp => some (.errorResponse errResp)

/-- Client configuration (the `Client` struct): base URL, the two
credential strings, and whether a logger is configured (`logger != nil`).
The transport handle and the service pointers carry no verified behaviour
and are omitted. -/
structure Client where
  baseURL : String
  apiKey : String
  userKey : String
  hasLogger : Bool
deriving DecidableEq, Repr

/-- Translation of `Client.Do` (client file, lines 156-184), given the
already-received transport response `r`.  After `checkErrorResponse`, the
body is decoded into the target: with a logger configured the body is
buffered and decoded with `json.Unmarshal` (`jsonUnmarshal` collaborator);
without one it is decoded from the stream with
`json.NewDecoder(resp.Body).Decode` (`decoderDecode` collaborator).  A
decode error equal to `io.EOF` is tolerated (`err != nil && err != io.EOF`),
leaving the target `v` at its prior value. -/
def Client.Do {β α : Type} (c : Client)
    (decodeErrorBody : β → Except JsonError ErrorResponse)
    (jsonUnmarshal : β → Except JsonError α)
    (decoderDecode : β → Except JsonError α)
    (v : α) (r : HttpResponse β) : Except GoError α :=
  match checkErrorResponse decodeErrorBody r with
  | some e => .error e
  | none =>
    match (if c.hasLogger then jsonUnmarshal r.Body else decoderDecode r.Body) with
    | .ok v2 => .ok v2
    | .error .eof => .ok v
    | .error (.mk m) => .error (.errorString m)

/-- Modelled collaborator: `json.NewDecoder(stream).Decode(&v)` over a
`String` body.  An empty stream yields `io.EOF`; a non-empty body yields
the result of the underlying JSON parse `parse`. -/
def jsonDecodeStream {α : Type} (parse : String → Except JsonError α)
    (s : String) : Except JsonError α :=
  if s = "" then .error .eof else parse s

/-- Modelled collaborator: `json.Unmarshal(bytes, &v)` over a `String`
body.  Empty input yields the JSON syntax error
`"unexpected end of JSON input"` — not `io.EOF`; a non-empty body yields
the result of the underlying JSON parse `parse`. -/
def jsonUnmarshalBytes {α : Type} (parse : String → Except JsonError α)
    (s : String) : Except JsonError α :=
  if s = "" then .error (.mk "unexpected end of JSON input") else parse s

/-- `const defaultBaseURL = "https://onesignal.com/api/v1"`. -/
def defaultBaseURL : String := "https://onesignal.com/api/v1"

/-- An ASCII control character (byte below 0x20, or DEL). -/
def isCTLChar (c : Char) : Bool := c.toNat < 32 || c.toNat == 127

/-- An ASCII hexadecimal digit. -/
def isHexDigitChar (c : Char) : Bool :=
  c.isDigit || (65 ≤ c.toNat && c.toNat ≤ 70) || (97 ≤ c.toNat && c.toNat ≤ 102)

/-- Every `%` in the character list is followed by two hexadecimal digits
(the validity check `net/url` applies to percent escapes). -/
def validEscapes : List Char → Bool
  | [] => true
  | '%' :: a :: b :: rest => isHexDigitChar a && isHexDigitChar b && validEscapes rest
  | '%' :: _ => false
  | _ :: rest => validEscapes rest

/-- Modelled collaborator: `net/url.Parse`, restricted to the
success/failure behaviour this client depends on.  Parse fails on a URL
containing an ASCII control character or an invalid percent escape (the
error messages are abbreviated forms of Go's), and otherwise succeeds; for
the URL shapes this client builds, the parsed URL prints back as the input
string, so the URL is carried as that string. -/
def urlParse (s : String) : Except String String :=
  if s.data.any isCTLChar then
    .error "net/url: invalid control character in URL"
  else if validEscapes s.data then
    .ok s
  else
    .error ("parse " ++ s ++ ": invalid URL escape")

/-- An HTTP method token character (RFC 7230 tchar), as accepted by
`net/http`'s method validation. -/
def isTokenChar (c : Char) : Bool :=
  c.isAlphanum ||
    [33, 35, 36, 37, 38, 39, 42, 43, 45, 46, 94, 95, 96, 124, 126].contains c.toNat

/-- `net/http`'s `validMethod`: non-empty and made of token characters. -/
def validMethod (m : String) : Bool :=
  !m.data.isEmpty && m.data.all isTokenChar

/-- The parts of an outbound `http.Request` this client constructs: method,
URL, optional JSON-encoded body, and headers in insertion order. -/
structure Request where
  Method : String
  URL : String
  Body : Option String
  Headers : List (String × String)
deriving DecidableEq, Repr

/-- Modelled collaborator: `http.NewRequest` on an already-parsed URL
string.  An empty method defaults to GET; an invalid method is rejected;
otherwise the request is returned with no headers set yet. -/
def mkHTTPRequest (method u : String) (body : Option String) :
    Except String Request :=
  if validMethod (if method = "" then "GET" else method) then
    .ok { Method := if method = "" then "GET" else method,
          URL := u, Body := body, Headers := [] }
  else
    .error ("net/http: invalid method " ++ method)

/-- `http.Header.Add`: appends the key/value pair. -/
def headerAdd (req : Request) (key value : String) : Request :=
  { req with Headers := req.Headers ++ [(key, value)] }

/-- `http.Header.Get`: the value of the first header with the given key,
or `""` when absent. -/
def headerGet : List (String × String) → String → String
  | [], _ => ""
  | kv :: rest, key => if kv.1 = key then kv.2 else headerGet rest key

/-- `AuthKeyType` specifies the token used to authenticate the requests:
`APP` or `USER`. -/
inductive AuthKeyType where
  | APP
  | USER
deriving DecidableEq, Repr

/-- The JSON encoding of the optional request body (client file, lines
118-130): a nil body stays absent; otherwise `json.NewEncoder(b).Encode`
(the `encode` collaborator) runs, and its failure aborts request
construction. -/
def encodeBody {α : Type} (encode : α → Except String String) :
    Option α → Except String (Option String)
  | none => .ok none
  | some b =>
    match encode b with
    | .error e => .error e
    | .ok s => .ok (some s)

/-- The credential selection inside `NewRequest` (client file, lines
141-146): the api key when `authKeyType == APP`, the user key in the
`else` branch. -/
def Client.selectKey (c : Client) : AuthKeyType → String
  | .APP => c.apiKey
  | .USER => c.userKey

/-- Translation of `Client.NewRequest` (client file, lines 110-151):
parse `baseURL + path`, encode the optional body, create the request, then
add `Content-Type`, `Accept`, and the `Authorization` header
`fmt.Sprintf("Basic %s", key)` where `key` is the selected credential. -/
def Client.NewRequest {α : Type} (c : Client) (method path : String)
    (body : Option α) (encode : α → Except String String)
    (authKeyType : AuthKeyType) : Except String Request :=
  match urlParse (c.baseURL ++ path) with
  | .error e => .error e
  | .ok u =>
    match encodeBody encode body with
    | .error e => .error e
    | .ok buf =>
      match mkHTTPRequest method u buf with
      | .error e => .error e
      | .ok req =>
        .ok (headerAdd
              (headerAdd (headerAdd req "Content-Type" "application/json")
                "Accept" "application/json")
              "Authorization" ("Basic " ++ c.selectKey authKeyType))

/-- `ClientOptions` represent required OneSignal client options; the
`Logger` function field is carried as its presence. -/
structure ClientOptions where
  BaseURL : String
  ApiKey : String
  UserKey : String
  hasLogger : Bool
deriving DecidableEq, Repr

/-- Translation of `New` (client file, lines 69-103): reject options with
both keys empty, default the base URL, parse it, and build the client. -/
def New (options : ClientOptions) : Except String Client :=
  if options.ApiKey = "" ∧ options.UserKey = "" then
    .error "require ApiKey or UserKey"
  else
    match urlParse (if options.BaseURL = "" then defaultBaseURL else options.BaseURL) with
    | .error e => .error e
    | .ok baseURL =>
      .ok { baseURL := baseURL, apiKey := options.ApiKey,
            userKey := options.UserKey, hasLogger := options.hasLogger }

/-- A Go `float32` value, carried opaquely by its bit pattern; the client
never computes with it, it only moves it between JSON and structs. -/
structure Float32 where
  bits : Nat
deriving DecidableEq, Repr

/-- `Player` represents a OneSignal player (players.go, lines 17-39).
Go `map[string]string` is carried as an association list. -/
structure Player where
  ID : String
  Playtime : Int
  SDK : String
  Identifier : String
  SessionCount : Int
  Language : String
  Timezone : Int
  GameVersion : String
  DeviceOS : String
  DeviceType : Int
  DeviceModel : String
  AdID : String
  Tags : List (String × String)
  LastActive : Int
  AmountSpent : Float32
  CreatedAt : Int
  InvalidIdentifier : Bool
  BadgeCount : Int
  TestType : Int
  IP : String
  ExternalUserID : String
deriving DecidableEq, Repr

/-- The zero value of `Player`, as allocated by `new(Player)` in
`PlayersService.Get` before decoding. -/
def playerZero : Player :=
  { ID := "", Playtime := 0, SDK := "", Identifier := "", SessionCount := 0,
    Language := "", Timezone := 0, GameVersion := "", DeviceOS := "",
    DeviceType := 0, DeviceModel := "", AdID := "", Tags := [],
    LastActive := 0, AmountSpent := ⟨0⟩, CreatedAt := 0,
    InvalidIdentifier := false, BadgeCount := 0, TestType := 0, IP := "",
    ExternalUserID := "" }

/-- Translation of the response handling of `PlayersService.Get`
(players.go, lines 223-251): run `Client.Do` with a fresh zero `Player` as
the decode target; on error return it; on success overwrite the `ID` field
with the `playerID` argument (`plResp.ID = playerID`) and return the
player.  The request-construction part (URL with `app_id` query and
`NewRequest`) precedes the response and does not touch the decoded value. -/
def PlayersService.Get {β : Type} (c : Client)
    (decodeErrorBody : β → Except JsonError ErrorResponse)
    (jsonUnmarshal decoderDecode : β → Except JsonError Player)
    (playerID : String) (r : HttpResponse β) : Except GoError Player :=
  match Client.Do c decodeErrorBody jsonUnmarshal decoderDecode playerZero r with
  | .error e => .error e
  | .ok plResp => .ok { plResp with ID := playerID }

/-- `NotificationButton` (notifications.go, lines 71-76). -/
structure NotificationButton where
  ID : String
  Text : String
  Icon : String
  URL : String
deriving DecidableEq, Repr

/-- `AndroidBackgroundLayout` (notifications.go, lines 61-68). -/
structure AndroidBackgroundLayout where
  Image : String
  HeadingsColor : String
  ContentsColor : String
deriving DecidableEq, Repr

/-- `NotificationRequest` (notifications.go, lines 142-422), field for
field.  `J` stands for Go `interface{}` values, which the client carries
without inspecting; `map[string]T` becomes an association list, `*T` an
`Option`, `uint` a `Nat`, `int` an `Int`, and the string-based enum types
(`MessageType`, `IOSBadgeType`, `DelayedOption`, `IOSInterruptionLevel`)
their underlying `String`. -/
structure NotificationRequest (J : Type) where
  AppID : String
  Name : String
  Contents : List (String × String)
  Headings : List (String × String)
  Subtitle : List (String × String)
  IsIOS : Bool
  IsAndroid : Bool
  IsWP_WNS : Bool
  IsHuawei : Bool
  IsADM : Bool
  IsChrome : Bool
  IsChromeWeb : Bool
  IsFirefox : Bool
  IsSafari : Bool
  IsAnyWeb : Bool
  ChannelForExternalUserIDs : String
  IncludedSegments : List String
  ExcludedSegments : List String
  IncludeExternalUserIDs : List String
  IncludeEmailTokens : List String
  IncludePhoneNumber : List String
  IncludePlayerIDs : List String
  IncludeIOSTokens : List String
  IncludeAndroidRegIDs : List String
  IncludeWPURIs : List String
  IncludeWPWNSURIs : List String
  IncludeAmazonRegIDs : List String
  IncludeChromeRegIDs : List String
  IncludeChromeWebRegIDs : List String
  AppIDs : List String
  Tags : J
  IOSBadgeType : String
  IOSBadgeCount : Int
  IOSSound : String
  IOSAttachments : List (String × String)
  IOSCategory : String
  AndroidSound : String
  HuaweiSound : String
  ADMSound : String
  WPWNSSound : String
  CollapseID : String
  WebPushTopic : String
  APNSAlert : List (String × J)
  Data : J
  Buttons : List NotificationButton
  IconType : String
  SmallIcon : String
  LargeIcon : String
  HuaweiSmallIcon : String
  HuaweiLargeIcon : String
  ADMSmallIcon : String
  ADMLargeIcon : String
  ChromeIcon : String
  ChromeWebIcon : String
  FirefoxIcon : String
  HuaweiBigPicture : String
  ChromeWebImage : String
  ChromeWebBadge : String
  WebButtons : List NotificationButton
  BigPicture : String
  ADMBigPicture : String
  AndroidBackgroundLayout : Option AndroidBackgroundLayout
  ChromeBigPicture : String
  URL : String
  AppURL : String
  WebURL : String
  SendAfter : String
  DelayedOption : String
  DeliveryTimeOfDay : String
  Priority : Nat
  APNSPushTypeOverride : String
  TTL : Nat
  ThrottleRatePerMinute : Nat
  EnableFrequencyCap : Bool
  AndroidLEDColor : String
  HuaweiLEDColor : String
  AndroidAccentColor : String
  HuaweiAccentColor : String
  AndroidVisibility : Int
  HuaweiVisibility : Int
  ContentAvailable : Bool
  AndroidBackgroundData : Bool
  AmazonBackgroundData : Bool
  TemplateID : String
  AndroidGroup : String
  AndroidGroupMessage : J
  ADMGroup : String
  ADMGroupMessage : J
  ThreadID : String
  SummaryArg : String
  SummaryArgCount : Int
  IOSRelevanceScore : Float32
  IOSInterruptionLevel : String
  Filters : J
  ExternalID : String
  TargetContentIdentifier : String
  HuaweiMsgType : String
  AndroidChannelID : String
  ExistingAndroidChannelID : String
  HuaweiChannelID : String
  HuaweiExistingChannelID : String
  EmailSubject : String
  EmailBody : String
  EmailFromName : String
  EmailFromAddress : String
  DisableEmailClickTracking : Bool
  SMSFrom : String
  SMSMediaURLs : List String

/-- Translation of the body handling of `NotificationsService.Create`
(notifications.go, lines 556-577).  Go executes `opt.AppID =
s.client.appID` through the caller's pointer before passing `opt` as the
request body to `NewRequest`, which JSON-encodes it; after that line the
caller's struct is not referenced again.  The pointer mutation is returned
explicitly as the first component (the struct the caller observes after
the call); the second component is the JSON encoding of the body handed to
request construction. -/
def NotificationsService.Create {J : Type} (appID : String)
    (opt : NotificationRequest J)
    (encode : NotificationRequest J → Except String String) :
    NotificationRequest J × Except String String :=
  ({ opt with AppID := appID }, encode { opt with AppID := appID })

/-- The claim-side rendering of an error-message list: each message on its
own line after `" - "`. -/
def renderedLines : List String → String
  | [] => ""
  | m :: ms => "\n - " ++ m ++ renderedLines ms

/-!  Helper lemmas (shared; none of these is a claim's theorem). -/

theorem strAppendNil (a : String) : a ++ "" = a := by
  cases a with
  | mk l => exact congrArg String.mk (List.append_nil l)

theorem strAppendAssoc (a b c : String) : a ++ b ++ c = a ++ (b ++ c)  := by
  cases a with
  | mk la =>
    cases b with
    | mk lb =>
      cases c with
      | mk lc => exact congrArg String.mk (List.append_assoc la lb lc)

theorem mkHTTPRequest_headers (method u : String) (body : Option String)
    (req : Request) (h : mkHTTPRequest method u body = .ok req) :
    req.Headers = [] := by
  unfold mkHTTPRequest at h
  split at h <;> split at h <;>
    first
      | (injection h with h2; subst h2; rfl)
      | exact Except.noConfusion h

/-- Core fact shared by several claims: whenever `NewRequest` succeeds, the
`Authorization` header of the produced request is `"Basic "` concatenated
with the raw credential selected by the key type. -/
theorem newRequest_ok_authorization {α : Type} (c : Client)
    (method path : String) (body : Option α)
    (encode : α → Except String String) (kind : AuthKeyType) (req : Request)
    (h : Client.NewRequest c method path body encode kind = .ok req) :
    headerGet req.Headers "Authorization" = "Basic " ++ c.selectKey kind := by
  unfold Client.NewRequest at h
  rcases hu : urlParse (c.baseURL ++ path) with e | u
  · rw [hu] at h; exact Except.noConfusion h
  · rw [hu] at h
    dsimp only at h
    rcases he : encodeBody encode body with e | buf
    · rw [he] at h; exact Except.noConfusion h
    · rw [he] at h
      dsimp only at h
      rcases hm : mkHTTPRequest method u buf with e | req0
      · rw [hm] at h; exact Except.noConfusion h
      · rw [hm] at h
        dsimp only at h
        have hH : req0.Headers = [] := mkHTTPRequest_headers method u buf req0 hm
        injection h with h2
        subst h2
        simp only [headerAdd, hH]
        cases kind <;> rfl

/-- C1: For every client and all (method, path, body, credential kind)
inputs on which request construction succeeds, the `Authorization` header
of the request built by `NewRequest` equals `"Basic "` concatenated with
the raw configured credential matching the kind — the api key for `APP`,
the user key for `USER` — with no base64 encoding applied. -/
theorem c1_authorization_header {α : Type} (c : Client)
    (method path : String) (body : Option α)
    (encode : α → Except String String) (kind : AuthKeyType) (req : Request)
    (h : Client.NewRequest c method path body encode kind = .ok req) :
    (kind = .APP →
      headerGet req.Headers "Authorization" = "Basic " ++ c.apiKey) ∧
    (kind = .USER →
      headerGet req.Headers "Authorization" = "Basic " ++ c.userKey) := by
  have h1 := newRequest_ok_authorization c method path body encode kind req h
  cases kind with
  | APP => exact ⟨fun _ => h1, fun hk => AuthKeyType.noConfusion hk⟩
  | USER => exact ⟨fun hk => AuthKeyType.noConfusion hk, fun _ => h1⟩

theorem c1_witness :
    headerGet [("Content-Type", "application/json"),
      ("Accept", "application/json"),
      ("Authorization", "Basic mock-api-key")] "Authorization" =
      "Basic " ++ "mock-api-key" :=
  (c1_authorization_header (α := Unit)
    { baseURL := defaultBaseURL, apiKey := "mock-api-key",
      userKey := "mock-user-key", hasLogger := false }
    "GET" "/apps" none (fun _ => .ok "") .APP
    { Method := "GET", URL := "https://onesignal.com/api/v1/apps",
      Body := none,
      Headers := [("Content-Type", "application/json"),
        ("Accept", "application/json"),
        ("Authorization", "Basic mock-api-key")] }
    (by rfl)).1 rfl

/-- C2: decoding a status-500 response yields the fixed
`errors.New("internal server error")` regardless of the body:
`checkErrorResponse` returns it for every body and every body decoder (so
the body is never read or parsed), and `Do` surfaces exactly that error. -/
theorem c2_internal_server_error :
    (∀ (β : Type) (d : β → Except JsonError ErrorResponse) (b : β),
        checkErrorResponse d ⟨500, b⟩ =
          some (.errorString "internal server error")) ∧
    (∀ (β γ : Type) (d : β → Except JsonError ErrorResponse)
        (d2 : γ → Except JsonError ErrorResponse) (b : β) (b2 : γ),
        checkErrorResponse d ⟨500, b⟩ = checkErrorResponse d2 ⟨500, b2⟩) ∧
    (∀ (β α : Type) (c : Client) (d : β → Except JsonError ErrorResponse)
        (um db : β → Except JsonError α) (v : α) (b : β),
        Client.Do c d um db v ⟨500, b⟩ =
          .error (.errorString "internal server error")) :=
  ⟨fun _ _ _ => rfl, fun _ _ _ _ _ _ => rfl, fun _ _ _ _ _ _ _ _ => rfl⟩

/-- C6 counterexample: a client holding only a user key, asked to build an
`APP`-kind request, does not fail with a configuration error — `NewRequest`
succeeds and the produced request carries the empty credential
(`Authorization: Basic `). -/
theorem c6_counterexample :
    Client.NewRequest (α := Unit)
        { baseURL := defaultBaseURL, apiKey := "", userKey := "user-key",
          hasLogger := false }
        "GET" "/apps" none (fun _ => .ok "") .APP =
      .ok { Method := "GET", URL := "https://onesignal.com/api/v1/apps",
            Body := none,
            Headers := [("Content-Type", "application/json"),
              ("Accept", "application/json"),
              ("Authorization", "Basic ")] } := by
  rfl

/-- C6 (amended): `NewRequest` performs no credential-presence check: when
the requested kind's credential is empty on the client, request
construction still succeeds whenever it otherwise would, and the produced
request carries the authorization value `"Basic "` followed by the empty
credential, rather than failing with a `ConfigurationError`. -/
theorem c6_amended_no_defense {α : Type} (c : Client) (method path : String)
    (body : Option α) (encode : α → Except String String)
    (kind : AuthKeyType) (req : Request)
    (hcred : c.selectKey kind = "")
    (h : Client.NewRequest c method path body encode kind = .ok req) :
    headerGet req.Headers "Authorization" = "Basic " := by
  have h1 := newRequest_ok_authorization c method path body encode kind req h
  rw [hcred] at h1
  exact h1.trans (strAppendNil "Basic ")

theorem c6_witness :
    headerGet [("Content-Type", "application/json"),
      ("Accept", "application/json"),
      ("Authorization", "Basic ")] "Authorization" = "Basic " :=
  c6_amended_no_defense (α := Unit)
    { baseURL := defaultBaseURL, apiKey := "", userKey := "user-key",
      hasLogger := false }
    "GET" "/apps" none (fun _ => .ok "") .APP
    { Method := "GET", URL := "https://onesignal.com/api/v1/apps",
      Body := none,
      Headers := [("Content-Type", "application/json"),
        ("Accept", "application/json"), ("Authorization", "Basic ")] }
    rfl (by rfl)

/-- C3: for every response whose status is neither 200, 204 nor 500 and
whose body fails to decode as the `{"errors": [...]}` error model (an
empty body yields `io.EOF`), decoding yields the wrapping decode error —
never an `ErrorResponse` — and `Do` surfaces exactly that error. -/
theorem c3_decode_error_not_api_error {β α : Type} (c : Client)
    (d : β → Except JsonError ErrorResponse)
    (um db : β → Except JsonError α) (v : α)
    (r : HttpResponse β) (e : JsonError)
    (h200 : r.StatusCode ≠ 200) (h204 : r.StatusCode ≠ 204)
    (h500 : r.StatusCode ≠ 500) (hdec : d r.Body = .error e) :
    checkErrorResponse d r =
        some (.errorString ("couldn't decode response body JSON: " ++ e.message)) ∧
    (∀ er : ErrorResponse,
        checkErrorResponse d r ≠ some (.errorResponse er)) ∧
    Client.Do c d um db v r =
      .error (.errorString ("couldn't decode response body JSON: " ++ e.message)) := by
  have hnot : ¬(r.StatusCode = 200 ∨ r.StatusCode = 204) := by
    rintro (hx | hx)
    exacts [h200 hx, h204 hx]
  have hc : checkErrorResponse d r =
      some (.errorString ("couldn't decode response body JSON: " ++ e.message)) := by
    unfold checkErrorResponse
    rw [if_neg hnot, if_neg h500, hdec]
  refine ⟨hc, ?_, ?_⟩
  · intro er hco
    rw [hc] at hco
    injection hco with hco2
    exact GoError.noConfusion hco2
  · unfold Client.Do
    rw [hc]

theorem c3_witness :
    checkErrorResponse
        (jsonDecodeStream (fun _ => .error (.mk "invalid character")))
        (⟨400, ""⟩ : HttpResponse String) =
      some (.errorString "couldn't decode response body JSON: EOF") ∧
    (∀ er : ErrorResponse,
        checkErrorResponse
          (jsonDecodeStream (fun _ => .error (.mk "invalid character")))
          (⟨400, ""⟩ : HttpResponse String) ≠ some (.errorResponse er)) ∧
    Client.Do
        { baseURL := defaultBaseURL, apiKey := "k", userKey := "",
          hasLogger := false }
        (jsonDecodeStream (fun _ => .error (.mk "invalid character")))
        (jsonUnmarshalBytes (fun _ => .ok (0 : Nat)))
        (jsonDecodeStream (fun _ => .ok 0)) 0 ⟨400, ""⟩ =
      .error (.errorString "couldn't decode response body JSON: EOF") :=
  c3_decode_error_not_api_error _ _ _ _ _ _ JsonError.eof
    (by decide) (by decide) (by decide) (by rfl)

/-- C4 (code bug): on a success-status response with an empty body the two
decode paths of `Do` disagree.  Without a logger, the stream decoder
returns `io.EOF`, which `Do` tolerates, leaving the target at its zero
value; with a logger configured, the buffered `json.Unmarshal` instead
returns the JSON syntax error "unexpected end of JSON input" — which is
not `io.EOF` — so `Do` returns that error: the empty-body tolerance the
code documents for the 204 case fails on the logger path. -/
theorem c4_empty_body_divergence :
    Client.Do
        { baseURL := defaultBaseURL, apiKey := "k", userKey := "",
          hasLogger := false }
        (jsonDecodeStream (fun _ => .error (.mk "x")))
        (jsonUnmarshalBytes (fun _ => .ok (1 : Nat)))
        (jsonDecodeStream (fun _ => .ok 1)) 0 ⟨200, ""⟩ = .ok 0 ∧
    Client.Do
        { baseURL := defaultBaseURL, apiKey := "k", userKey := "",
          hasLogger := true }
        (jsonDecodeStream (fun _ => .error (.mk "x")))
        (jsonUnmarshalBytes (fun _ => .ok (1 : Nat)))
        (jsonDecodeStream (fun _ => .ok 1)) 0 ⟨200, ""⟩ =
      .error (.errorString "unexpected end of JSON input") :=
  ⟨rfl, rfl⟩

/-- C5 counterexample: an options value with a non-empty api key whose
`BaseURL` does not parse (`"%zz"` carries an invalid percent escape, which
`net/url.Parse` rejects) makes `New` fail — so construction does not
succeed for every options value with at least one non-empty key. -/
theorem c5_counterexample :
    New { BaseURL := "%zz", ApiKey := "k", UserKey := "",
          hasLogger := false } =
      .error ("parse %zz: invalid URL escape") :=
  rfl

/-- C5 (amended): `New` fails with the configuration error
`"require ApiKey or UserKey"` exactly when both keys are empty; with at
least one key non-empty it succeeds provided the effective base URL (the
configured one, or the default when `BaseURL` is empty) parses, and with
an unparsable `BaseURL` it fails with the URL parse error instead. -/
theorem c5_amended_new_construction :
    (∀ o : ClientOptions, o.ApiKey = "" → o.UserKey = "" →
        New o = .error "require ApiKey or UserKey") ∧
    (∀ o : ClientOptions, o.ApiKey ≠ "" ∨ o.UserKey ≠ "" →
        ∀ u : String,
          urlParse (if o.BaseURL = "" then defaultBaseURL else o.BaseURL) =
            .ok u →
          New o = .ok { baseURL := u, apiKey := o.ApiKey,
                        userKey := o.UserKey, hasLogger := o.hasLogger }) ∧
    (∀ o : ClientOptions, o.ApiKey ≠ "" ∨ o.UserKey ≠ "" →
        ∀ e : String,
          urlParse (if o.BaseURL = "" then defaultBaseURL else o.BaseURL) =
            .error e →
          New o = .error e) := by
  refine ⟨?_, ?_, ?_⟩
  · intro o h1 h2
    unfold New
    rw [if_pos ⟨h1, h2⟩]
  · intro o hk u hu
    have hne : ¬(o.ApiKey = "" ∧ o.UserKey = "") := by
      rintro ⟨h1, h2⟩
      rcases hk with hx | hx
      exacts [hx h1, hx h2]
    unfold New
    rw [if_neg hne, hu]
  · intro o hk e he
    have hne : ¬(o.ApiKey = "" ∧ o.UserKey = "") := by
      rintro ⟨h1, h2⟩
      rcases hk with hx | hx
      exacts [hx h1, hx h2]
    unfold New
    rw [if_neg hne, he]

theorem c5_witness :
    New { BaseURL := "", ApiKey := "", UserKey := "", hasLogger := false } =
      .error "require ApiKey or UserKey" ∧
    New { BaseURL := "", ApiKey := "mock-api-key", UserKey := "",
          hasLogger := false } =
      .ok { baseURL := defaultBaseURL, apiKey := "mock-api-key",
            userKey := "", hasLogger := false } :=
  ⟨c5_amended_new_construction.1 _ rfl rfl,
   c5_amended_new_construction.2.1 _ (Or.inl (by decide)) defaultBaseURL
    (by rfl)⟩

/-- C7 counterexample: the combined rendering of the messages
`["m1", "m2"]` is prefixed by `"OneSignal errors:"`, not by
`"API errors:"` as the claim states. -/
theorem c7_counterexample :
    ErrorResponse.Error ⟨["m1", "m2"]⟩ = "OneSignal errors:\n - m1\n - m2" ∧
    ErrorResponse.Error ⟨["m1", "m2"]⟩ ≠ "API errors:\n - m1\n - m2" :=
  ⟨rfl, by decide⟩

theorem stringsJoin_foldl (ms : List String) :
    ∀ acc : String,
      ms.foldl (fun a s => a ++ "\n - " ++ s) acc = acc ++ renderedLines ms := by
  induction ms with
  | nil => intro acc; exact (strAppendNil acc).symm
  | cons x xs ih =>
    intro acc
    show xs.foldl _ (acc ++ "\n - " ++ x) = _
    rw [ih (acc ++ "\n - " ++ x),
      strAppendAssoc acc "\n - " x,
      strAppendAssoc acc ("\n - " ++ x) (renderedLines xs)]
    rfl

/-- C7 (amended): for an `ErrorResponse` holding messages `m1 .. mn` with
`n ≥ 1`, the `Error()` rendering equals `"OneSignal errors:"` followed by
each message on its own line after `" - "` — the claim's format with the
prefix `"OneSignal errors:"` in place of `"API errors:"`. -/
theorem c7_amended_rendering (m : String) (ms : List String) :
    ErrorResponse.Error ⟨m :: ms⟩ =
      "OneSignal errors:" ++ renderedLines (m :: ms) := by
  show "OneSignal errors:\n - " ++ ms.foldl (fun a s => a ++ "\n - " ++ s) m =
    _
  rw [stringsJoin_foldl ms m]
  have h1 : ("OneSignal errors:\n - " : String) =
      "OneSignal errors:" ++ "\n - " := rfl
  rw [h1, strAppendAssoc "OneSignal errors:" "\n - " (m ++ renderedLines ms),
    ← strAppendAssoc "\n - " m (renderedLines ms)]
  rfl

/-- C8: for every response with a 2xx status other than 200 and 204 (for
example 201), `checkErrorResponse` takes the error-decoding branch — some
error is always produced, and when the body decodes as the error model the
error is that `ErrorResponse` — and `Do` never returns a successful
decode of the caller's target. -/
theorem c8_2xx_not_success {β α : Type} (c : Client)
    (d : β → Except JsonError ErrorResponse)
    (um db : β → Except JsonError α) (v : α) (r : HttpResponse β)
    (hlo : 200 ≤ r.StatusCode) (hhi : r.StatusCode ≤ 299)
    (h200 : r.StatusCode ≠ 200) (h204 : r.StatusCode ≠ 204) :
    (∃ g : GoError, checkErrorResponse d r = some g) ∧
    (∀ er : ErrorResponse, d r.Body = .ok er →
        checkErrorResponse d r = some (.errorResponse er)) ∧
    (∀ a : α, Client.Do c d um db v r ≠ .ok a) := by
  have h500 : r.StatusCode ≠ 500 := by omega
  have hnot : ¬(r.StatusCode = 200 ∨ r.StatusCode = 204) := by
    rintro (hx | hx)
    exacts [h200 hx, h204 hx]
  have hce : checkErrorResponse d r =
      (match d r.Body with
       | .error err =>
          some (.errorString
            ("couldn't decode response body JSON: " ++ err.message))
       | .ok errResp => some (.errorResponse errResp)) := by
    unfold checkErrorResponse
    rw [if_neg hnot, if_neg h500]
  refine ⟨?_, ?_, ?_⟩
  · rcases hb : d r.Body with e | er
    · refine ⟨.errorString ("couldn't decode response body JSON: " ++
        e.message), ?_⟩
      rw [hce, hb]
    · refine ⟨.errorResponse er, ?_⟩
      rw [hce, hb]
  · intro er hm
    rw [hce, hm]
  · intro a hDo
    unfold Client.Do at hDo
    rw [hce] at hDo
    rcases hb : d r.Body with e | er <;> rw [hb] at hDo <;>
      exact Except.noConfusion hDo

theorem c8_witness :
    (∃ g : GoError,
        checkErrorResponse
          (jsonDecodeStream (fun _ => .ok (⟨["err"]⟩ : ErrorResponse)))
          (⟨201, "x"⟩ : HttpResponse String) = some g) ∧
    (∀ er : ErrorResponse,
        jsonDecodeStream (fun _ => .ok (⟨["err"]⟩ : ErrorResponse)) "x" =
          .ok er →
        checkErrorResponse
          (jsonDecodeStream (fun _ => .ok (⟨["err"]⟩ : ErrorResponse)))
          (⟨201, "x"⟩ : HttpResponse String) = some (.errorResponse er)) ∧
    (∀ a : Nat,
        Client.Do
          { baseURL := defaultBaseURL, apiKey := "k", userKey := "",
            hasLogger := false }
          (jsonDecodeStream (fun _ => .ok (⟨["err"]⟩ : ErrorResponse)))
          (jsonUnmarshalBytes (fun _ => .ok 0))
          (jsonDecodeStream (fun _ => .ok 0)) 0
          (⟨201, "x"⟩ : HttpResponse String) ≠ .ok a) :=
  c8_2xx_not_success _ _ _ _ _ _
    (by decide) (by decide) (by decide) (by decide)

/-- C9: `NotificationsService.Create` overwrites the `AppID` field of the
caller-supplied `NotificationRequest` with the client's configured app id
before serializing the request body — the mutation is visible to the
caller — while every other field is left unchanged (restoring the original
`AppID` recovers the original struct exactly), and the serialized body is
the JSON encoding of the mutated struct. -/
theorem c9_create_overwrites_appID {J : Type} (appID : String)
    (opt : NotificationRequest J)
    (encode : NotificationRequest J → Except String String) :
    (NotificationsService.Create appID opt encode).1.AppID = appID ∧
    ({ (NotificationsService.Create appID opt encode).1 with
        AppID := opt.AppID } = opt) ∧
    (NotificationsService.Create appID opt encode).2 =
      encode (NotificationsService.Create appID opt encode).1 :=
  ⟨rfl, rfl, rfl⟩

/-- C10: on every successful `PlayersService.Get(playerID)` call, the
returned player's `ID` equals the `playerID` argument — overwritten after
decoding, regardless of the id carried by the response body — while
restoring the decoded `ID` recovers the decoded player exactly (all other
fields come from the decoded body). -/
theorem c10_get_overwrites_id {β : Type} (c : Client)
    (d : β → Except JsonError ErrorResponse)
    (um db : β → Except JsonError Player)
    (playerID : String) (r : HttpResponse β) (pl : Player)
    (hdo : Client.Do c d um db playerZero r = .ok pl) :
    ∃ q : Player, PlayersService.Get c d um db playerID r = .ok q ∧
      q.ID = playerID ∧ ({ q with ID := pl.ID } : Player) = pl := by
  refine ⟨{ pl with ID := playerID }, ?_, rfl, rfl⟩
  unfold PlayersService.Get
  rw [hdo]

theorem c10_witness :
    ∃ q : Player,
      PlayersService.Get
          { baseURL := defaultBaseURL, apiKey := "k", userKey := "",
            hasLogger := false }
          (jsonDecodeStream (fun _ => .error (.mk "x")))
          (jsonUnmarshalBytes (fun _ => .ok playerZero))
          (jsonDecodeStream
            (fun _ => .ok { playerZero with ID := "server-id" }))
          "id123" (⟨200, "{}"⟩ : HttpResponse String) = .ok q ∧
      q.ID = "id123" ∧
      ({ q with ID := "server-id" } : Player) =
        { playerZero with ID := "server-id" } :=
  c10_get_overwrites_id _ _ _ _ "id123" _
    { playerZero with ID := "server-id" } (by rfl)

end OneSignal
